import Mathlib

/-!
Verification of the ispayla_wa_bot marketplace bot core logic
(`app/bot/services/forms.py`, `app/bot/handlers/buy.py`,
`app/bot/handlers/sell.py`) against its natural-language specification.

The relevant Python code is shallowly embedded:
* Python strings are Lean `String`s; `str.lower`/`str.title` are modelled
  for the character ranges the bot handles (ASCII and Cyrillic).
* Python dicts keyed by strings are association lists with first-occurrence
  lookup and replace-in-place update, matching dict semantics on maps with
  unique keys.
* External effects (the database, HTTP media download, ad creation) are
  parameters of the embedded functions.
* A raised, uncaught Python exception (e.g. IndexError) is `Except.error`.
-/

namespace IspaylaBot

/-! ### Python string primitives -/

/-- Model of `str.lower` for the ASCII letters and the Cyrillic block
    (А..Я U+0410..U+042F and Ё U+0401) used by the bot's vocabulary. -/
def charLower (c : Char) : Char :=
  if 65 ≤ c.toNat ∧ c.toNat ≤ 90 then Char.ofNat (c.toNat + 32)
  else if 0x410 ≤ c.toNat ∧ c.toNat ≤ 0x42F then Char.ofNat (c.toNat + 32)
  else if c.toNat = 0x401 then Char.ofNat 0x451
  else c

/-- Model of `str.upper` on the same character ranges. -/
def charUpper (c : Char) : Char :=
  if 97 ≤ c.toNat ∧ c.toNat ≤ 122 then Char.ofNat (c.toNat - 32)
  else if 0x430 ≤ c.toNat ∧ c.toNat ≤ 0x44F then Char.ofNat (c.toNat - 32)
  else if c.toNat = 0x451 then Char.ofNat 0x401
  else c

def pyLower (s : String) : String := ⟨s.data.map charLower⟩

/-- Python `str.strip()` (whitespace on both ends). -/
def pyStrip (s : String) : String :=
  ⟨((s.data.dropWhile Char.isWhitespace).reverse.dropWhile Char.isWhitespace).reverse⟩

/-- Python `value.replace(" ", "")`: drop every space character. -/
def removeSpaces (s : String) : String := ⟨s.data.filter (fun c => c ≠ ' ')⟩

/-- Python `s.startswith(pre)`. -/
def pyStartsWith (s pre : String) : Bool := pre.data.isPrefixOf s.data

/-- A cased (alphabetic) character in the modelled alphabet. -/
def isCasedChar (c : Char) : Bool :=
  c.isAlpha || (0x410 ≤ c.toNat && c.toNat ≤ 0x44F) || c.toNat == 0x401 || c.toNat == 0x451

/-- Helper for `pyTitle`: the boolean records whether the previous
    character was cased. -/
def titleAux : List Char → Bool → List Char
  | [], _ => []
  | c :: rest, prevCased =>
    (if isCasedChar c then (if prevCased then charLower c else charUpper c) else c)
      :: titleAux rest (isCasedChar c)

/-- Model of `str.title()`: uppercase every cased character that follows a
    non-cased one, lowercase the rest. -/
def pyTitle (s : String) : String := ⟨titleAux s.data false⟩

/-- Numeric value of a digit run (Python `int` on an all-digits string). -/
def digitsVal (ds : List Char) : Nat := ds.foldl (fun a c => a * 10 + (c.toNat - 48)) 0

/-- Helper for `findallNums`: accumulates the current digit run (reversed). -/
def findallAux : List Char → List Char → List Nat
  | [], acc => if acc.isEmpty then [] else [digitsVal acc.reverse]
  | c :: rest, acc =>
    if c.isDigit then findallAux rest (c :: acc)
    else if acc.isEmpty then findallAux rest []
    else digitsVal acc.reverse :: findallAux rest []

/-- Model of `[int(x) for x in re.findall(r"\d+", s)]`: the values of the
    maximal digit runs of `s`, in order of appearance. -/
def findallNums (s : String) : List Nat := findallAux s.data []

/-- Model of `int(s)` on user text: strip whitespace, optional sign, then a
    nonempty all-digits body; anything else raises `ValueError` (`none`). -/
def pyIntOfString (s : String) : Option Int :=
  let t := (pyStrip s).data
  let signed : Int × List Char :=
    match t with
    | '+' :: r => (1, r)
    | '-' :: r => (-1, r)
    | r => (1, r)
  if signed.2 ≠ [] ∧ signed.2.all Char.isDigit then
    some (signed.1 * (digitsVal signed.2 : Int))
  else none

/-- Python `s.isdigit()` for ASCII digits. -/
def pyIsDigit (s : String) : Bool := s ≠ "" && s.data.all Char.isDigit

/-- Model of `text.split(maxsplit=1)` with whitespace splitting. -/
def pySplit1 (s : String) : List String :=
  let t := s.data.dropWhile Char.isWhitespace
  if t.isEmpty then []
  else
    let tok := t.takeWhile (fun c => !c.isWhitespace)
    let rest := (t.dropWhile (fun c => !c.isWhitespace)).dropWhile Char.isWhitespace
    if rest.isEmpty then [⟨tok⟩] else [⟨tok⟩, ⟨rest⟩]

/-! ### Python dicts as association lists -/

/-- `d.get(k)` on a dict: first-occurrence lookup. -/
def lookupK {α : Type} (m : List (String × α)) (k : String) : Option α :=
  (m.find? (fun p => p.1 == k)).map Prod.snd

/-- `d[k] = v` on a dict: replace in place, else append. -/
def setK {α : Type} : List (String × α) → String → α → List (String × α)
  | [], k, v => [(k, v)]
  | (k', v') :: rest, k, v =>
    if k' == k then (k, v) :: rest else (k', v') :: setK rest k v

/-- `d.pop(k, None)` on a dict: drop the (unique) entry for `k`. -/
def popK {α : Type} : List (String × α) → String → List (String × α)
  | [], _ => []
  | (k', v') :: rest, k => if k' == k then rest else (k', v') :: popK rest k

theorem lookupK_nil {α : Type} (k : String) : lookupK ([] : List (String × α)) k = none := rfl

theorem lookupK_cons {α : Type} (k' : String) (v' : α) (l : List (String × α)) (k : String) :
    lookupK ((k', v') :: l) k = if k' == k then some v' else lookupK l k := by
  simp only [lookupK, List.find?]
  cases h : k' == k <;> simp [h]

theorem lookupK_setK_self {α : Type} (m : List (String × α)) (k : String) (v : α) :
    lookupK (setK m k v) k = some v := by
  induction m with
  | nil => simp [setK, lookupK_cons, lookupK_nil]
  | cons p rest ih =>
    obtain ⟨k', v'⟩ := p
    by_cases h : k' = k
    · subst h
      simp [setK, lookupK_cons]
    · have hb : (k' == k) = false := beq_eq_false_iff_ne.mpr h
      simp only [setK, hb, Bool.false_eq_true, if_false, lookupK_cons]
      exact ih

theorem lookupK_setK_ne {α : Type} (m : List (String × α)) (k k' : String) (v : α)
    (h : k' ≠ k) : lookupK (setK m k v) k' = lookupK m k' := by
  have hk : (k == k') = false := beq_eq_false_iff_ne.mpr (fun hh => h hh.symm)
  induction m with
  | nil => simp [setK, lookupK_cons, lookupK_nil, hk]
  | cons p rest ih =>
    obtain ⟨k0, v0⟩ := p
    by_cases h0 : k0 = k
    · subst h0
      simp [setK, lookupK_cons, hk]
    · have hb : (k0 == k) = false := beq_eq_false_iff_ne.mpr h0
      simp only [setK, hb, Bool.false_eq_true, if_false, lookupK_cons]
      rw [ih]

theorem lookupK_popK_ne {α : Type} (m : List (String × α)) (k k' : String)
    (h : k' ≠ k) : lookupK (popK m k) k' = lookupK m k' := by
  induction m with
  | nil => simp [popK]
  | cons p rest ih =>
    obtain ⟨k0, v0⟩ := p
    by_cases h0 : k0 = k
    · subst h0
      have hk : (k0 == k') = false := beq_eq_false_iff_ne.mpr (fun hh => h hh.symm)
      simp [popK, lookupK_cons, hk]
    · have hb : (k0 == k) = false := beq_eq_false_iff_ne.mpr h0
      simp only [popK, hb, Bool.false_eq_true, if_false, lookupK_cons]
      rw [ih]

theorem lookupK_eq_none_of_not_mem {α : Type} (m : List (String × α)) (k : String)
    (h : k ∉ m.map Prod.fst) : lookupK m k = none := by
  induction m with
  | nil => simp [lookupK]
  | cons p rest ih =>
    simp only [List.map_cons, List.mem_cons] at h
    push_neg at h
    have hb : (p.1 == k) = false := beq_eq_false_iff_ne.mpr (fun hh => h.1 hh.symm)
    obtain ⟨k0, v0⟩ := p
    rw [lookupK_cons]
    simp only at hb
    simp only [hb, Bool.false_eq_true, if_false]
    exact ih h.2

/-! ### `app/bot/services/forms.py` — the sell-form wizard -/

namespace Forms

/-- A validated form value (`str`, `int` or the photo path list). -/
inductive FormValue : Type
  | str (s : String)
  | int (n : Int)
  | photos (ps : List String)
deriving DecidableEq

def CANCEL_WORDS : List String := ["отмена", "cancel", "стоп", "stop", "меню", "menu"]

def MEDIA_MESSAGE_TYPES : List String := ["imageMessage", "documentMessage"]

def MAX_PHOTOS : Nat := 3

def POSTGRES_INT_MAX : Int := 2147483647

/-- `SellFormState`: the per-sender wizard state. -/
structure SellFormState : Type where
  step_index : Nat
  data : List (String × FormValue)
  photos : List String
deriving DecidableEq

/-- `_validate_text`. -/
def validate_text (value : String) (field_name : String) (min_length : Nat) :
    Except String String :=
  let cleaned := pyStrip value
  if cleaned.length < min_length then .error (field_name ++ " слишком короткий")
  else .ok cleaned

/-- `_validate_price`. -/
def validate_price (value : String) : Except String Int :=
  match pyIntOfString (removeSpaces value) with
  | none => .error "Цена должна быть числом"
  | some price =>
    if price ≤ 0 then .error "Цена должна быть больше 0"
    else if price > POSTGRES_INT_MAX then
      .error "Цена должна быть меньше или равна 2 147 483 647."
    else .ok price

/-- `_validate_year`; `currentYear` stands for `datetime.utcnow().year`. -/
def validate_year (currentYear : Int) (value : String) : Except String Int :=
  match pyIntOfString value with
  | none => .error "Год должен быть числом"
  | some year =>
    if 1950 ≤ year ∧ year ≤ currentYear + 1 then .ok year
    else .error "Год вне допустимого диапазона"

/-- `_validate_mileage`. -/
def validate_mileage (value : String) : Except String Int :=
  match pyIntOfString (removeSpaces value) with
  | none => .error "Пробег должен быть числом"
  | some mileage =>
    if mileage < 0 then .error "Пробег не может быть отрицательным"
    else if mileage > POSTGRES_INT_MAX then
      .error "Mileage must be less than or equal to 2 147 483 647 km."
    else .ok mileage

/-- `_validate_photos`: text never passes the photo step. -/
def validate_photos (_value : String) : Except String (List String) :=
  .error "Отправь фотографию как вложение, не текстом."

/-- `_validate_region`. -/
def validate_region (value : String) : Except String String :=
  validate_text value "Регион" 2

/-- `_validate_condition`. -/
def validate_condition (value : String) : Except String String :=
  let cleaned := pyLower (pyStrip value)
  if cleaned ∈ ["целый", "целая", "без дтп", "не битый", "небитый"] then .ok "целый"
  else if cleaned ∈ ["после дтп", "битый", "битая", "ремонт", "ремонтировался"] then
    .ok "после дтп"
  else .error "Укажи состояние: целый или после ДТП"

/-- One entry of `SELL_FORM_STEPS`; `type_photos` models `"type": "photos"`. -/
structure Step : Type where
  key : String
  prompt : String
  validator : String → Except String FormValue
  type_photos : Bool

/-- `SELL_FORM_STEPS`, parameterized by the wall-clock year used by
    `_validate_year`. -/
def SELL_FORM_STEPS (currentYear : Int) : List Step :=
  [ { key := "title", prompt := "1️⃣ Введи заголовок объявления:",
      validator := fun v => (validate_text v "Заголовок" 3).map FormValue.str,
      type_photos := false },
    { key := "description", prompt := "2️⃣ Опиши автомобиль (комплектация, состояние):",
      validator := fun v => (validate_text v "Описание" 10).map FormValue.str,
      type_photos := false },
    { key := "price", prompt := "3️⃣ Укажи цену в рублях:",
      validator := fun v => (validate_price v).map FormValue.int,
      type_photos := false },
    { key := "brand", prompt := "4️⃣ Марка (например, Toyota):",
      validator := fun v => (validate_text v "Марка" 2).map FormValue.str,
      type_photos := false },
    { key := "model", prompt := "5️⃣ Модель (например, Camry):",
      validator := fun v => (validate_text v "Модель" 1).map FormValue.str,
      type_photos := false },
    { key := "year", prompt := "6️⃣ Год выпуска:",
      validator := fun v => (validate_year currentYear v).map FormValue.int,
      type_photos := false },
    { key := "mileage", prompt := "7️⃣ Пробег (км):",
      validator := fun v => (validate_mileage v).map FormValue.int,
      type_photos := false },
    { key := "vin", prompt := "8️⃣ VIN-номер (17 символов):",
      validator := fun v => (validate_text v "VIN" 5).map FormValue.str,
      type_photos := false },
    { key := "region", prompt := "9️⃣ Регион продажи (например, Грозный):",
      validator := fun v => (validate_region v).map FormValue.str,
      type_photos := false },
    { key := "condition", prompt := "🔟 Состояние авто (целый / после ДТП):",
      validator := fun v => (validate_condition v).map FormValue.str,
      type_photos := false },
    { key := "photos",
      prompt := "1️⃣1️⃣ Прикрепи фото автомобиля (до 3 шт, можно по одному). Когда закончишь, напиши 'готово'.",
      validator := fun v => (validate_photos v).map FormValue.photos,
      type_photos := true } ]

/-- The saved ad returned by `create_ad_from_form` (external DB layer). -/
structure AdResult : Type where
  id : Nat
  is_active : Bool
deriving DecidableEq

/-- `SellFormManager._states`. -/
def StateMap : Type := List (String × SellFormState)

/-- `SellFormManager.start`. -/
def start (currentYear : Int) (states : StateMap) (sender : String) :
    String × StateMap :=
  ("Запускаем оформление продажи. Можно написать 'отмена', чтобы выйти.\n"
      ++ (match (SELL_FORM_STEPS currentYear).get? 0 with
          | some st => st.prompt
          | none => ""),
   setK states sender { step_index := 0, data := [], photos := [] })

/-- `SellFormManager.cancel`. -/
def cancel (states : StateMap) (sender : String) : StateMap := popK states sender

/-- `SellFormManager.has_state`. -/
def has_state (states : StateMap) (sender : String) : Bool :=
  (lookupK states sender).isSome

/-- `SellFormManager.handle`.  `createAd` models `create_ad_from_form`
    (success with the stored ad, or an exception).  The result is
    `.error "IndexError"` when the Python code would raise an uncaught
    `IndexError`; otherwise `.ok (reply, new state map)`. -/
def handle (currentYear : Int)
    (createAd : String → List (String × FormValue) → Except String AdResult)
    (states : StateMap) (sender : String) (message : Option String) :
    Except String (String × StateMap) :=
  match lookupK states sender with
  | none => .ok ("", states)
  | some state0 =>
    match message with
    | none => .ok ("Нужно ответить текстом. Повтори, пожалуйста.", states)
    | some msg =>
      if msg = "" then .ok ("Нужно ответить текстом. Повтори, пожалуйста.", states)
      else
        let text := pyStrip msg
        if pyLower text ∈ CANCEL_WORDS then
          .ok ("Окей, отменили создание объявления. Напиши «меню», чтобы вернуться в главное меню.",
               popK states sender)
        else
          match (SELL_FORM_STEPS currentYear).get? state0.step_index with
          | none => .error "IndexError"
          | some step =>
            let branch : String ⊕ SellFormState :=
              if step.type_photos then
                if pyLower text ∈ ["готово", "done"] then
                  if state0.photos.isEmpty then
                    Sum.inl "Добавь хотя бы одно фото перед завершением."
                  else
                    Sum.inr { state0 with
                      data := setK state0.data "photos" (FormValue.photos state0.photos),
                      step_index := state0.step_index + 1 }
                else
                  Sum.inl "Отправь фотографию (как вложение) или напиши 'готово', когда закончишь."
              else
                match step.validator text with
                | .error err => Sum.inl ("Ошибка: " ++ err ++ ". " ++ step.prompt)
                | .ok value =>
                  Sum.inr { state0 with
                    data := setK state0.data step.key value,
                    step_index := state0.step_index + 1 }
            match branch with
            | Sum.inl reply => .ok (reply, states)
            | Sum.inr state1 =>
              let states1 := setK states sender state1
              if state1.step_index ≥ (SELL_FORM_STEPS currentYear).length then
                match createAd sender state1.data with
                | .error exc =>
                  .ok ("Не удалось сохранить объявление: " ++ exc ++ ". Попробуй позже.",
                       popK states1 sender)
                | .ok ad =>
                  .ok ("Объявление сохранено!\nID: " ++ toString ad.id ++ ". Статус: "
                        ++ (if ad.is_active then "активно" else "на модерации")
                        ++ ".\nВ ближайшее время модератор проверит данные.\nЧтобы вернуться в меню, нажми кнопку «⬅️ В меню» или напиши «меню».",
                       popK states1 sender)
              else
                match (SELL_FORM_STEPS currentYear).get? state1.step_index with
                | none => .error "IndexError"
                | some next => .ok (next.prompt, states1)

/-- An inbound media event; `fileData` models the optional
    `fileMessageData`/`imageMessageData` payload `(downloadUrl, fileName)`. -/
structure MediaEvent : Type where
  typeMessage : String
  fileData : Option (Option String × Option String)

/-- `_extract_media`. -/
def extract_media (m : MediaEvent) : Option String × Option String :=
  match m.fileData with
  | none => (none, none)
  | some p => p

/-- `SellFormManager.handle_media`.  `save` models `_save_media`
    (download URL, original file name, sender → saved path or exception). -/
def handle_media (currentYear : Int)
    (save : String → Option String → String → Except String String)
    (states : StateMap) (sender : String) (m : MediaEvent) :
    Except String (String × StateMap) :=
  match lookupK states sender with
  | none => .ok ("", states)
  | some state0 =>
    match (SELL_FORM_STEPS currentYear).get? state0.step_index with
    | none => .error "IndexError"
    | some step =>
      if !step.type_photos then .ok ("", states)
      else if m.typeMessage ∉ MEDIA_MESSAGE_TYPES then .ok ("", states)
      else
        match (extract_media m).1 with
        | none => .ok ("Не смог прочитать вложение. Пришли фото ещё раз.", states)
        | some download_url =>
          match save download_url (extract_media m).2 sender with
          | .error _ => .ok ("Не удалось сохранить фото. Попробуй ещё раз.", states)
          | .ok saved_path =>
            let photos1 := state0.photos ++ [saved_path]
            if photos1.length ≥ MAX_PHOTOS then
              .ok ("Достаточно фото, напиши 'готово' для завершения.",
                   setK states sender { state0 with
                     photos := photos1,
                     data := setK state0.data "photos" (FormValue.photos photos1),
                     step_index := state0.step_index + 1 })
            else
              .ok ("Фото сохранено (" ++ toString photos1.length ++ "). Отправь ещё или напиши 'готово'.",
                   setK states sender { state0 with photos := photos1 })

end Forms

/-! ### `app/bot/handlers/buy.py` — filter state, catalog, ID resolution -/

namespace Buy

def PAGE_SIZE : Int := 5

/-- One per-user filter/pagination state.  Every key of the Python dict is a
    field; `_ensure_state`'s per-key `setdefault` loop is the identity on this
    always-complete record, and `state.pop("min_year")` is modelled as
    resetting the field to its `None` default. -/
structure FilterState : Type where
  page : Int
  page_size : Int
  min_price : Option Int
  max_price : Option Int
  year : Option Int
  min_year : Option Int
  max_year : Option Int
  min_mileage : Option Int
  max_mileage : Option Int
  car_brand_id : Option Int
  brand_name : Option String
  region : Option String
  condition : Option String
  sort_by : String
  sort_order : String
deriving DecidableEq

/-- `_new_filter_state`. -/
def new_filter_state : FilterState :=
  { page := 0, page_size := PAGE_SIZE,
    min_price := none, max_price := none,
    year := none, min_year := none, max_year := none,
    min_mileage := none, max_mileage := none,
    car_brand_id := none, brand_name := none,
    region := none, condition := none,
    sort_by := "created", sort_order := "desc" }

/-- A row returned by the public-ads query (external DB). -/
structure CatalogAd : Type where
  id : Nat
  title : String
  price : Int
  year : Int
  mileage : Int
deriving DecidableEq

/-- The external listing store: `count_filtered_public_ads` and
    `filter_public_ads` (state, page, page_size). -/
structure Db : Type where
  count_filtered_public_ads : FilterState → Nat
  filter_public_ads : FilterState → Int → Int → List CatalogAd

def CONDITION_SYNONYMS : List (String × String) :=
  [ ("целый", "целый"), ("целая", "целый"), ("без дтп", "целый"),
    ("не битый", "целый"), ("небитый", "целый"),
    ("после дтп", "после дтп"), ("битый", "после дтп"), ("битая", "после дтп"),
    ("ремонт", "после дтп"), ("ремонтировался", "после дтп") ]

/-- The module-level mutable state of `buy.py`: the filter map, the flat
    JSON state file (the serialized mapping; `json.dumps`/`loads` round-trips
    these records, so the file holds the mapping itself), and the caches. -/
structure BuyWorld : Type where
  filter_state : List (String × FilterState)
  state_file : Option (List (String × FilterState))
  last_catalog : List (String × List Nat)
  last_details : List (String × List CatalogAd)
  last_viewed : List (String × Nat)
  search_wait : List (String × Bool)
deriving DecidableEq

/-- `_ensure_state`: return the user's state, creating the default entry if
    absent (the `setdefault` per-key completion is the identity here). -/
def ensure_state (w : BuyWorld) (sender : String) : FilterState × BuyWorld :=
  match lookupK w.filter_state sender with
  | some st => (st, w)
  | none =>
    (new_filter_state,
     { w with filter_state := setK w.filter_state sender new_filter_state })

/-- `_persist_filter_state`: rewrite the flat file with the whole mapping. -/
def persist_filter_state (w : BuyWorld) : BuyWorld :=
  { w with state_file := some w.filter_state }

/-- `_load_filter_state`: if the file exists, merge its entries over the
    in-memory mapping (`_FILTER_STATE.update`). -/
def load_filter_state (w : BuyWorld) : BuyWorld :=
  match w.state_file with
  | none => w
  | some data =>
    { w with filter_state := data.foldl (fun m p => setK m p.1 p.2) w.filter_state }

/-- `_render_filtered`: fetch the current page, refresh the per-user catalog
    caches and build the display text. -/
def render_filtered (db : Db) (w : BuyWorld) (sender : String) : String × BuyWorld :=
  let sw := ensure_state w sender
  let state := sw.1
  let total := db.count_filtered_public_ads state
  let ads := db.filter_public_ads state state.page state.page_size
  let w2 := { sw.2 with
    last_catalog := setK sw.2.last_catalog sender (ads.map CatalogAd.id),
    last_details := setK sw.2.last_details sender ads }
  if ads.isEmpty then
    ("Пока нет объявлений под эти фильтры. Напиши «сброс» или «покупка», чтобы начать заново.", w2)
  else
    let total_pages := max 1 (Int.fdiv ((total : Int) + state.page_size - 1) state.page_size)
    let sort_desc :=
      if state.sort_by = "price" then
        (if state.sort_order = "asc" then "дешевле → дороже" else "дороже → дешевле")
      else "новые сверху"
    let header := "Каталог: " ++ toString total ++ " шт. Страница "
      ++ toString (state.page + 1) ++ "/" ++ toString total_pages
      ++ " | Сортировка: " ++ sort_desc
    let rows := ads.enum.map (fun p =>
      toString (p.1 + 1) ++ ". " ++ p.2.title ++ " — " ++ toString p.2.price
        ++ " ₽, " ++ toString p.2.year ++ " г., " ++ toString p.2.mileage
        ++ " км (ID#" ++ toString p.2.id ++ ")")
    let footer := "Напиши номер из списка или ID#, чтобы открыть. «дальше/назад» — листать, «сброс» — очистить."
    (String.intercalate "\n" (header :: rows ++ [footer]), w2)

/-- `_shift_page`. -/
def shift_page (w : BuyWorld) (sender : String) (delta : Int) : BuyWorld :=
  let sw := ensure_state w sender
  let fs := setK sw.2.filter_state sender { sw.1 with page := max 0 (sw.1.page + delta) }
  persist_filter_state { sw.2 with filter_state := fs }

/-- `_parse_range`. -/
def parse_range (text : String) : Option Int × Option Int :=
  match (findallNums text).map (Int.ofNat) with
  | [] => (none, none)
  | [a] => (some a, none)
  | a :: b :: _ => (some a, some b)

/-- `_update_price_filter`. -/
def update_price_filter (db : Db) (w : BuyWorld) (sender text : String) :
    String × BuyWorld :=
  let lh := parse_range text
  let sw := ensure_state w sender
  let fs := setK sw.2.filter_state sender
    { sw.1 with min_price := lh.1, max_price := lh.2, page := 0 }
  let w2 := persist_filter_state { sw.2 with filter_state := fs }
  render_filtered db w2 sender

/-- `_reset_filters`. -/
def reset_filters (w : BuyWorld) (sender : String) : BuyWorld :=
  persist_filter_state
    { w with
      filter_state := setK w.filter_state sender new_filter_state,
      last_catalog := popK w.last_catalog sender,
      last_details := popK w.last_details sender,
      last_viewed := popK w.last_viewed sender,
      search_wait := popK w.search_wait sender }

/-- `_update_region_filter`.  The whole raw command text (original case) is
    passed in, exactly as `handle_buy_text` does. -/
def update_region_filter (db : Db) (w : BuyWorld) (sender text : String) :
    String × BuyWorld :=
  match pySplit1 text with
  | [] => ("Укажите регион после слова «регион», например: регион Грозный", w)
  | [_] => ("Укажите регион после слова «регион», например: регион Грозный", w)
  | _ :: rest :: _ =>
    let region := pyStrip rest
    let sw := ensure_state w sender
    if region = "" ∨ region ∈ ["любой", "-", "any"] then
      let fs := setK sw.2.filter_state sender { sw.1 with region := none, page := 0 }
      render_filtered db (persist_filter_state { sw.2 with filter_state := fs }) sender
    else if region.length < 2 then
      ("Название региона должно быть длиннее 1 символа.", sw.2)
    else
      let fs := setK sw.2.filter_state sender
        { sw.1 with region := some (pyTitle region), page := 0 }
      render_filtered db (persist_filter_state { sw.2 with filter_state := fs }) sender

/-- `_normalize_condition`. -/
def normalize_condition (value : String) : Option String × Bool :=
  let cleaned := pyLower (pyStrip value)
  if cleaned = "" ∨ cleaned ∈ ["любой", "-", "any"] then (none, true)
  else
    match lookupK CONDITION_SYNONYMS cleaned with
    | some canonical => (some canonical, true)
    | none => (none, false)

/-- `_update_condition_filter`. -/
def update_condition_filter (db : Db) (w : BuyWorld) (sender text : String) :
    String × BuyWorld :=
  match pySplit1 text with
  | [] => ("Укажите состояние после слова «состояние»: целый или после ДТП.", w)
  | [_] => ("Укажите состояние после слова «состояние»: целый или после ДТП.", w)
  | _ :: rest :: _ =>
    let nc := normalize_condition rest
    if !nc.2 then
      ("Не понял состояние. Напишите «состояние целый» или «состояние после ДТП».", w)
    else
      let sw := ensure_state w sender
      let fs := setK sw.2.filter_state sender { sw.1 with condition := nc.1, page := 0 }
      render_filtered db (persist_filter_state { sw.2 with filter_state := fs }) sender

/-- `_extract_public_id`: resolve a typed reference to a catalog ad,
    possibly refreshing the catalog cache via `_render_filtered`. -/
def extract_public_id (db : Db) (w : BuyWorld) (sender text : String) :
    Option Nat × BuyWorld :=
  let cleaned := pyLower (pyStrip text)
  if pyStartsWith cleaned "id" then
    match findallNums cleaned with
    | n :: _ => (some n, w)
    | [] => (none, w)
  else if pyIsDigit cleaned then
    let num := digitsVal cleaned.data
    if num ≤ 0 then (none, w)
    else
      let ids0 := (lookupK w.last_catalog sender).getD []
      let iw :=
        if ids0.isEmpty ∨ num > ids0.length then
          let w1 := (render_filtered db w sender).2
          ((lookupK w1.last_catalog sender).getD [], w1)
        else (ids0, w)
      if ¬iw.1.isEmpty ∧ 1 ≤ num ∧ num ≤ iw.1.length then
        (iw.1.get? (num - 1), iw.2)
      else (some num, iw.2)
  else (none, w)

end Buy

/-! ### `app/bot/handlers/sell.py` — detail-request ID resolution -/

namespace Sell

/-- `_resolve_index`: 1-based position in the cached summary list when in
    range, else the literal (positive) value. -/
def resolve_index (summaries : List (String × List Nat)) (sender : String)
    (idx : Nat) : Option Nat :=
  let current := (lookupK summaries sender).getD []
  if ¬current.isEmpty ∧ 1 ≤ idx ∧ idx ≤ current.length then current.get? (idx - 1)
  else if idx > 0 then some idx else none

/-- `_extract_detail_request`. -/
def extract_detail_request (summaries : List (String × List Nat))
    (sender text : String) : Option Nat :=
  let cleaned := pyLower (pyStrip text)
  if pyStartsWith cleaned "id" then
    match findallNums cleaned with
    | n :: _ => some n
    | [] => none
  else if pyStartsWith cleaned "объявление" then
    match findallNums cleaned with
    | n :: _ => resolve_index summaries sender n
    | [] => none
  else if pyIsDigit cleaned then resolve_index summaries sender (digitsVal cleaned.data)
  else none

end Sell

/-! ### Concrete fixtures shared by several theorems -/

/-- An empty `buy.py` module state (fresh process, no state file). -/
def w0 : Buy.BuyWorld :=
  { filter_state := [], state_file := none, last_catalog := [],
    last_details := [], last_viewed := [], search_wait := [] }

/-- A trivial listing store returning no rows. -/
def db0 : Buy.Db :=
  { count_filtered_public_ads := fun _ => 0,
    filter_public_ads := fun _ _ _ => [] }

/-! ### Claims -/

/-- The sender of the C1 scenario. -/
def c1_sender : String := "79990000000@c.us"

/-- Sell-form state on the photo step (index 10) with two photos stored. -/
def c1_state : Forms.SellFormState :=
  { step_index := 10, data := [],
    photos := ["media/uploads/a.jpg", "media/uploads/b.jpg"] }

/-- The state left behind after the third photo hits `MAX_PHOTOS`. -/
def c1_state_after : Forms.SellFormState :=
  { step_index := 11,
    data := [("photos", Forms.FormValue.photos
      ["media/uploads/a.jpg", "media/uploads/b.jpg", "media/uploads/c.jpg"])],
    photos := ["media/uploads/a.jpg", "media/uploads/b.jpg", "media/uploads/c.jpg"] }

/-- An inbound image attachment with a readable download URL. -/
def c1_event : Forms.MediaEvent :=
  { typeMessage := "imageMessage",
    fileData := some (some "https://host/file", some "photo.jpg") }

/-- A media save that succeeds. -/
def c1_save : String → Option String → String → Except String String :=
  fun _ _ _ => Except.ok "media/uploads/c.jpg"

/-- An ad-creation backend that would succeed if it were ever called. -/
def c1_createAd : String → List (String × Forms.FormValue) → Except String Forms.AdResult :=
  fun _ _ => Except.ok { id := 1, is_active := false }

/-- C1: the claimed invariant fails on the photo-cap path of `handle_media`.
    When the third photo reaches `MAX_PHOTOS`, `step_index` is advanced to 11,
    which equals the step count, yet the per-sender state is NOT consumed: no
    ad is created, the state stays in the map, and the follow-up "готово" that
    the returned message requests makes `handle` index
    `SELL_FORM_STEPS[11]` and raise an uncaught `IndexError`. -/
theorem c1_photo_cap_leaves_state_unconsumed :
    Forms.handle_media 2026 c1_save [(c1_sender, c1_state)] c1_sender c1_event =
      Except.ok ("Достаточно фото, напиши 'готово' для завершения.",
        [(c1_sender, c1_state_after)]) ∧
    (Forms.SELL_FORM_STEPS 2026).length = 11 ∧
    Forms.handle 2026 c1_createAd [(c1_sender, c1_state_after)] c1_sender
        (some "готово") = Except.error "IndexError" :=
  ⟨rfl, rfl, rfl⟩

/-- C2: on a validated-text step, for non-empty non-cancel input the wizard
    either rejects (reply `"Ошибка: <reason>. <same prompt>"`, state map
    unchanged) or accepts (value stored under the step's key, `step_index`
    incremented by exactly 1, next prompt returned). -/
theorem c2_text_step_behaviour (y : Int)
    (createAd : String → List (String × Forms.FormValue) → Except String Forms.AdResult)
    (states : Forms.StateMap) (sender msg : String)
    (state0 : Forms.SellFormState) (step : Forms.Step)
    (hstate : lookupK states sender = some state0)
    (hstep : (Forms.SELL_FORM_STEPS y).get? state0.step_index = some step)
    (hphotos : step.type_photos = false)
    (hmsg : msg ≠ "")
    (hcancel : pyLower (pyStrip msg) ∉ Forms.CANCEL_WORDS) :
    (∀ err, step.validator (pyStrip msg) = Except.error err →
        Forms.handle y createAd states sender (some msg) =
          Except.ok ("Ошибка: " ++ err ++ ". " ++ step.prompt, states)) ∧
    (∀ value, step.validator (pyStrip msg) = Except.ok value →
        ∃ next : Forms.Step,
          (Forms.SELL_FORM_STEPS y).get? (state0.step_index + 1) = some next ∧
          Forms.handle y createAd states sender (some msg) =
            Except.ok (next.prompt,
              setK states sender
                { state0 with
                  data := setK state0.data step.key value,
                  step_index := state0.step_index + 1 })) := by
  have hlt : state0.step_index < (Forms.SELL_FORM_STEPS y).length := by
    by_contra hge
    push_neg at hge
    rw [List.get?_eq_none.mpr hge] at hstep
    exact Option.noConfusion hstep
  have hlen : (Forms.SELL_FORM_STEPS y).length = 11 := rfl
  have hne10 : state0.step_index ≠ 10 := by
    intro h10
    rw [h10] at hstep
    injection hstep with hinj
    rw [← hinj] at hphotos
    exact Bool.noConfusion hphotos
  have hfin : ¬ (state0.step_index + 1 ≥ (Forms.SELL_FORM_STEPS y).length) := by
    rw [hlen]
    omega
  have hnextlt : state0.step_index + 1 < (Forms.SELL_FORM_STEPS y).length := by
    rw [hlen]
    rw [hlen] at hlt
    omega
  constructor
  · intro err herr
    simp only [Forms.handle, hstate, hmsg, if_neg hmsg, hcancel, if_neg hcancel,
      hstep, hphotos, herr, Bool.false_eq_true, if_false]
  · intro value hval
    refine ⟨(Forms.SELL_FORM_STEPS y).get ⟨state0.step_index + 1, hnextlt⟩,
      List.get?_eq_get hnextlt, ?_⟩
    simp only [Forms.handle, hstate, hmsg, if_neg hmsg, hcancel, if_neg hcancel,
      hstep, hphotos, hval, Bool.false_eq_true, if_false,
      List.get?_eq_get hnextlt]
    rw [if_neg hfin]

/-- Fixture for the C2 witness: one sender on step 0 (the title step). -/
def c2_states : Forms.StateMap := [("u", { step_index := 0, data := [], photos := [] })]

/-- Fixture: ad creation backend (never reached in the witness). -/
def c2_createAd : String → List (String × Forms.FormValue) → Except String Forms.AdResult :=
  fun _ _ => Except.ok { id := 1, is_active := true }

/-- Step 0 of the wizard, spelled out. -/
def c2_step0 : Forms.Step :=
  { key := "title", prompt := "1️⃣ Введи заголовок объявления:",
    validator := fun v => (Forms.validate_text v "Заголовок" 3).map Forms.FormValue.str,
    type_photos := false }

/-- Step 1 of the wizard, spelled out. -/
def c2_step1 : Forms.Step :=
  { key := "description", prompt := "2️⃣ Опиши автомобиль (комплектация, состояние):",
    validator := fun v => (Forms.validate_text v "Описание" 10).map Forms.FormValue.str,
    type_photos := false }

theorem c2_text_step_behaviour_witness :
    Forms.handle 2026 c2_createAd c2_states "u" (some "ab") =
      Except.ok ("Ошибка: Заголовок слишком короткий. 1️⃣ Введи заголовок объявления:",
        c2_states) ∧
    Forms.handle 2026 c2_createAd c2_states "u" (some "Продам авто") =
      Except.ok ("2️⃣ Опиши автомобиль (комплектация, состояние):",
        [("u", { step_index := 1,
                 data := [("title", Forms.FormValue.str "Продам авто")],
                 photos := [] })]) := by
  constructor
  · exact (c2_text_step_behaviour 2026 c2_createAd c2_states "u" "ab"
      { step_index := 0, data := [], photos := [] } c2_step0
      rfl rfl rfl (by decide) (by decide)).1 "Заголовок слишком короткий" rfl
  · obtain ⟨next, hn, he⟩ := (c2_text_step_behaviour 2026 c2_createAd c2_states "u"
      "Продам авто" { step_index := 0, data := [], photos := [] } c2_step0
      rfl rfl rfl (by decide) (by decide)).2 (Forms.FormValue.str "Продам авто") rfl
    have h1 : some c2_step1 = some next :=
      (rfl : (Forms.SELL_FORM_STEPS 2026).get? 1 = some c2_step1).symm.trans hn
    injection h1 with h2
    rw [← h2] at he
    exact he

/-- C3: `_parse_range` maps zero digit groups to `(None, None)`, one group
    to `(value, None)` and two-or-more groups to `(first, second)` in order
    of appearance; in particular `"цена 100-200" ↦ (100, 200)`,
    `"год 2020" ↦ (2020, None)` and `"нет чисел" ↦ (None, None)`. -/
theorem c3_parse_range_spec (text : String) :
    (findallNums text = [] → Buy.parse_range text = (none, none)) ∧
    (∀ a : Nat, findallNums text = [a] → Buy.parse_range text = (some (a : Int), none)) ∧
    (∀ (a b : Nat) (rest : List Nat), findallNums text = a :: b :: rest →
        Buy.parse_range text = (some (a : Int), some (b : Int))) ∧
    Buy.parse_range "цена 100-200" = (some 100, some 200) ∧
    Buy.parse_range "год 2020" = (some 2020, none) ∧
    Buy.parse_range "нет чисел" = (none, none) := by
  refine ⟨?_, ?_, ?_, rfl, rfl, rfl⟩
  · intro h
    simp [Buy.parse_range, h]
  · intro a h
    simp [Buy.parse_range, h]
  · intro a b rest h
    simp [Buy.parse_range, h]

theorem c3_parse_range_spec_witness :
    Buy.parse_range "abc" = (none, none) ∧
    Buy.parse_range "x 7" = (some 7, none) ∧
    Buy.parse_range "x 1 2 3" = (some 1, some 2) :=
  ⟨(c3_parse_range_spec "abc").1 rfl,
   (c3_parse_range_spec "x 7").2.1 7 rfl,
   (c3_parse_range_spec "x 1 2 3").2.2.1 1 2 [3] rfl⟩

/-- C9: the sell-form condition validator and the buy-filter synonym table
    are the same canonicalization: after trim/lowercase, `_validate_condition`
    succeeds with exactly the value the `_CONDITION_SYNONYMS` lookup returns,
    fails exactly when the lookup misses, and every canonical value is
    `"целый"` or `"после дтп"`. -/
theorem c9_condition_canonicalization_equiv (s : String) :
    (Forms.validate_condition s =
      match lookupK Buy.CONDITION_SYNONYMS (pyLower (pyStrip s)) with
      | some c => Except.ok c
      | none => Except.error "Укажи состояние: целый или после ДТП") ∧
    (match lookupK Buy.CONDITION_SYNONYMS (pyLower (pyStrip s)) with
     | some c => c = "целый" ∨ c = "после дтп"
     | none => True) := by
  have key : ∀ c : String,
      ((if c ∈ ["целый", "целая", "без дтп", "не битый", "небитый"] then
          (Except.ok "целый" : Except String String)
        else if c ∈ ["после дтп", "битый", "битая", "ремонт", "ремонтировался"] then
          Except.ok "после дтп"
        else Except.error "Укажи состояние: целый или после ДТП") =
        match lookupK Buy.CONDITION_SYNONYMS c with
        | some v => Except.ok v
        | none => Except.error "Укажи состояние: целый или после ДТП") ∧
      (match lookupK Buy.CONDITION_SYNONYMS c with
       | some v => v = "целый" ∨ v = "после дтп"
       | none => True) := by
    intro c
    by_cases h1 : c = "целый"
    · subst h1; exact ⟨rfl, Or.inl rfl⟩
    by_cases h2 : c = "целая"
    · subst h2; exact ⟨rfl, Or.inl rfl⟩
    by_cases h3 : c = "без дтп"
    · subst h3; exact ⟨rfl, Or.inl rfl⟩
    by_cases h4 : c = "не битый"
    · subst h4; exact ⟨rfl, Or.inl rfl⟩
    by_cases h5 : c = "небитый"
    · subst h5; exact ⟨rfl, Or.inl rfl⟩
    by_cases h6 : c = "после дтп"
    · subst h6; exact ⟨rfl, Or.inr rfl⟩
    by_cases h7 : c = "битый"
    · subst h7; exact ⟨rfl, Or.inr rfl⟩
    by_cases h8 : c = "битая"
    · subst h8; exact ⟨rfl, Or.inr rfl⟩
    by_cases h9 : c = "ремонт"
    · subst h9; exact ⟨rfl, Or.inr rfl⟩
    by_cases h10 : c = "ремонтировался"
    · subst h10; exact ⟨rfl, Or.inr rfl⟩
    have b1 : (("целый" : String) == c) = false := beq_eq_false_iff_ne.mpr (Ne.symm h1)
    have b2 : (("целая" : String) == c) = false := beq_eq_false_iff_ne.mpr (Ne.symm h2)
    have b3 : (("без дтп" : String) == c) = false := beq_eq_false_iff_ne.mpr (Ne.symm h3)
    have b4 : (("не битый" : String) == c) = false := beq_eq_false_iff_ne.mpr (Ne.symm h4)
    have b5 : (("небитый" : String) == c) = false := beq_eq_false_iff_ne.mpr (Ne.symm h5)
    have b6 : (("после дтп" : String) == c) = false := beq_eq_false_iff_ne.mpr (Ne.symm h6)
    have b7 : (("битый" : String) == c) = false := beq_eq_false_iff_ne.mpr (Ne.symm h7)
    have b8 : (("битая" : String) == c) = false := beq_eq_false_iff_ne.mpr (Ne.symm h8)
    have b9 : (("ремонт" : String) == c) = false := beq_eq_false_iff_ne.mpr (Ne.symm h9)
    have b10 : (("ремонтировался" : String) == c) = false :=
      beq_eq_false_iff_ne.mpr (Ne.symm h10)
    have l1 : lookupK Buy.CONDITION_SYNONYMS c = none := by
      simp [Buy.CONDITION_SYNONYMS, lookupK_cons, lookupK_nil,
        b1, b2, b3, b4, b5, b6, b7, b8, b9, b10]
    have m1 : c ∉ ["целый", "целая", "без дтп", "не битый", "небитый"] := by
      simp [h1, h2, h3, h4, h5]
    have m2 : c ∉ ["после дтп", "битый", "битая", "ремонт", "ремонтировался"] := by
      simp [h6, h7, h8, h9, h10]
    rw [l1, if_neg m1, if_neg m2]
    exact ⟨rfl, trivial⟩
  have := key (pyLower (pyStrip s))
  exact ⟨by rw [Forms.validate_condition]; exact this.1, this.2⟩

/-- C7: resetting then shifting by `+2` gives page 2, resetting then shifting
    by `-5` gives page 0; a positive delta from page 0 never triggers the
    floor, and the page after any shift is never negative. -/
theorem c7_page_shift_bounds (w : Buy.BuyWorld) (sender : String) :
    (lookupK (Buy.shift_page (Buy.reset_filters w sender) sender 2).filter_state
        sender).map Buy.FilterState.page = some 2 ∧
    (lookupK (Buy.shift_page (Buy.reset_filters w sender) sender (-5)).filter_state
        sender).map Buy.FilterState.page = some 0 ∧
    (∀ d : Int, 0 < d →
      (lookupK (Buy.shift_page (Buy.reset_filters w sender) sender d).filter_state
          sender).map Buy.FilterState.page = some d) ∧
    (∀ (w' : Buy.BuyWorld) (d : Int) (st : Buy.FilterState),
      lookupK (Buy.shift_page w' sender d).filter_state sender = some st →
      0 ≤ st.page) := by
  have base : ∀ d : Int,
      lookupK (Buy.shift_page (Buy.reset_filters w sender) sender d).filter_state
          sender =
        some { Buy.new_filter_state with page := max 0 (Buy.new_filter_state.page + d) } := by
    intro d
    unfold Buy.shift_page Buy.reset_filters Buy.persist_filter_state Buy.ensure_state
    simp only [lookupK_setK_self]
  refine ⟨?_, ?_, ?_, ?_⟩
  · rw [base]
    norm_num [Buy.new_filter_state]
  · rw [base]
    norm_num [Buy.new_filter_state]
  · intro d hd
    rw [base]
    have hmax : max (0 : Int) (Buy.new_filter_state.page + d) = d := by
      have hp : Buy.new_filter_state.page = 0 := rfl
      rw [hp, zero_add]
      exact max_eq_right hd.le
    rw [hmax]
    rfl
  · intro w' d st h
    unfold Buy.shift_page Buy.persist_filter_state Buy.ensure_state at h
    cases heq : lookupK w'.filter_state sender <;>
      simp only [heq, lookupK_setK_self, Option.some.injEq] at h <;>
      subst h <;> simp [le_max_left]

theorem c7_page_shift_bounds_witness :
    (lookupK (Buy.shift_page (Buy.reset_filters w0 "u") "u" 2).filter_state
        "u").map Buy.FilterState.page = some 2 ∧
    (lookupK (Buy.shift_page (Buy.reset_filters w0 "u") "u" (-5)).filter_state
        "u").map Buy.FilterState.page = some 0 ∧
    (lookupK (Buy.shift_page (Buy.reset_filters w0 "u") "u" 3).filter_state
        "u").map Buy.FilterState.page = some 3 ∧
    0 ≤ ({ Buy.new_filter_state with page := 3 } : Buy.FilterState).page :=
  ⟨(c7_page_shift_bounds w0 "u").1,
   (c7_page_shift_bounds w0 "u").2.1,
   (c7_page_shift_bounds w0 "u").2.2.1 3 (by norm_num),
   (c7_page_shift_bounds w0 "u").2.2.2 w0 3 { Buy.new_filter_state with page := 3 }
     (by decide)⟩

/-- `_render_filtered` only touches the catalog caches: when the sender
    already has a filter state, the filter mapping and the state file are
    unchanged. -/
theorem render_filtered_preserves (db : Buy.Db) (w : Buy.BuyWorld) (sender : String)
    (st : Buy.FilterState) (h : lookupK w.filter_state sender = some st) :
    (Buy.render_filtered db w sender).2.filter_state = w.filter_state ∧
    (Buy.render_filtered db w sender).2.state_file = w.state_file := by
  unfold Buy.render_filtered Buy.ensure_state
  rw [h]
  dsimp only
  split
  · exact ⟨rfl, rfl⟩
  · exact ⟨rfl, rfl⟩

/-- Fixture: a user with a previously stored region filter. -/
def c4_world : Buy.BuyWorld :=
  { filter_state := [("u", { Buy.new_filter_state with region := some "Грозный" })],
    state_file := none, last_catalog := [], last_details := [],
    last_viewed := [], search_wait := [] }

/-- C4 counterexample: the claim requires `"любой"/"-"/"any"` to clear the
    region under CASE-INSENSITIVE comparison, but `_update_region_filter`
    compares the raw argument before lowering: `"регион Любой"` does not
    clear the region — it stores the title-cased value `"Любой"`. -/
theorem c4_counterexample_case_sensitivity :
    (lookupK (Buy.update_region_filter db0 c4_world "u" "регион Любой").2.filter_state
        "u").map Buy.FilterState.region = some (some "Любой") ∧
    some (some "Любой") ≠ (some none : Option (Option String)) :=
  ⟨rfl, by decide⟩

/-- C4 (amended): the region is cleared only when the raw argument is exactly
    `"любой"`, `"-"` or `"any"` (lowercase, case-SENSITIVE comparison) or
    empty; any other argument of length ≥ 2 is stored title-cased; a shorter
    argument is rejected with an error message and the state is unchanged. -/
theorem c4_region_filter_amended (db : Buy.Db) (w : Buy.BuyWorld)
    (sender text tok rest : String) (st0 : Buy.FilterState)
    (hst : lookupK w.filter_state sender = some st0)
    (hsplit : pySplit1 text = [tok, rest]) :
    (pyStrip rest = "" ∨ pyStrip rest ∈ ["любой", "-", "any"] →
      lookupK (Buy.update_region_filter db w sender text).2.filter_state sender =
        some { st0 with region := none, page := 0 }) ∧
    (¬(pyStrip rest = "" ∨ pyStrip rest ∈ ["любой", "-", "any"]) →
      2 ≤ (pyStrip rest).length →
      lookupK (Buy.update_region_filter db w sender text).2.filter_state sender =
        some { st0 with region := some (pyTitle (pyStrip rest)), page := 0 }) ∧
    (¬(pyStrip rest = "" ∨ pyStrip rest ∈ ["любой", "-", "any"]) →
      (pyStrip rest).length < 2 →
      Buy.update_region_filter db w sender text =
        ("Название региона должно быть длиннее 1 символа.", w)) := by
  refine ⟨?_, ?_, ?_⟩
  · intro hclear
    unfold Buy.update_region_filter
    rw [hsplit]
    dsimp only
    rw [Buy.ensure_state, hst]
    dsimp only
    rw [if_pos hclear]
    have hself :
        lookupK (setK w.filter_state sender { st0 with region := none, page := 0 })
          sender = some { st0 with region := none, page := 0 } :=
      lookupK_setK_self _ _ _
    rw [(render_filtered_preserves db _ sender _ hself).1]
    exact hself
  · intro hclear hlen
    unfold Buy.update_region_filter
    rw [hsplit]
    dsimp only
    rw [Buy.ensure_state, hst]
    dsimp only
    rw [if_neg hclear, if_neg (by omega : ¬ (pyStrip rest).length < 2)]
    have hself :
        lookupK (setK w.filter_state sender
            { st0 with region := some (pyTitle (pyStrip rest)), page := 0 }) sender =
          some { st0 with region := some (pyTitle (pyStrip rest)), page := 0 } :=
      lookupK_setK_self _ _ _
    rw [(render_filtered_preserves db _ sender _ hself).1]
    exact hself
  · intro hclear hlen
    unfold Buy.update_region_filter
    rw [hsplit]
    dsimp only
    rw [Buy.ensure_state, hst]
    dsimp only
    rw [if_neg hclear, if_pos hlen]

theorem c4_region_filter_amended_witness :
    lookupK (Buy.update_region_filter db0 c4_world "u" "регион махачкала").2.filter_state
        "u" =
      some { Buy.new_filter_state with region := some "Махачкала" } ∧
    lookupK (Buy.update_region_filter db0 c4_world "u" "регион любой").2.filter_state
        "u" =
      some Buy.new_filter_state ∧
    Buy.update_region_filter db0 c4_world "u" "регион ы" =
      ("Название региона должно быть длиннее 1 символа.", c4_world) :=
  ⟨(c4_region_filter_amended db0 c4_world "u" "регион махачкала" "регион" "махачкала"
      { Buy.new_filter_state with region := some "Грозный" } rfl rfl).2.1
      (by decide) (by decide),
   (c4_region_filter_amended db0 c4_world "u" "регион любой" "регион" "любой"
      { Buy.new_filter_state with region := some "Грозный" } rfl rfl).1
      (by decide),
   (c4_region_filter_amended db0 c4_world "u" "регион ы" "регион" "ы"
      { Buy.new_filter_state with region := some "Грозный" } rfl rfl).2.2
      (by decide) (by decide)⟩

/-- Helper: a recognized condition command stores the canonical value and
    resets the page. -/
theorem update_condition_sets (db : Buy.Db) (w : Buy.BuyWorld)
    (sender text tok rest : String) (canonical : Option String)
    (st0 : Buy.FilterState)
    (hst : lookupK w.filter_state sender = some st0)
    (hsplit : pySplit1 text = [tok, rest])
    (hnorm : Buy.normalize_condition rest = (canonical, true)) :
    lookupK (Buy.update_condition_filter db w sender text).2.filter_state sender =
      some { st0 with condition := canonical, page := 0 } := by
  unfold Buy.update_condition_filter
  rw [hsplit]
  dsimp only
  rw [hnorm]
  dsimp only
  simp only [Bool.not_true, Bool.false_eq_true, if_false]
  rw [Buy.ensure_state, hst]
  dsimp only
  have hself :
      lookupK (setK w.filter_state sender { st0 with condition := canonical, page := 0 })
        sender = some { st0 with condition := canonical, page := 0 } :=
    lookupK_setK_self _ _ _
  rw [(render_filtered_preserves db _ sender _ hself).1]
  exact hself

/-- C8: `"состояние после ДТП"` stores canonical `"после дтп"`,
    `"состояние целый"` stores `"целый"`, `"состояние любой"` clears the
    condition; a condition string outside the synonym table (and not an
    `"любой"/"-"/"any"`/empty sentinel) returns the usage hint and leaves the
    whole module state unchanged. -/
theorem c8_condition_filter (db : Buy.Db) (w : Buy.BuyWorld) (sender : String)
    (st0 : Buy.FilterState) (hst : lookupK w.filter_state sender = some st0) :
    lookupK (Buy.update_condition_filter db w sender
        "состояние после ДТП").2.filter_state sender =
      some { st0 with condition := some "после дтп", page := 0 } ∧
    lookupK (Buy.update_condition_filter db w sender
        "состояние целый").2.filter_state sender =
      some { st0 with condition := some "целый", page := 0 } ∧
    lookupK (Buy.update_condition_filter db w sender
        "состояние любой").2.filter_state sender =
      some { st0 with condition := none, page := 0 } ∧
    (∀ text tok rest, pySplit1 text = [tok, rest] →
      lookupK Buy.CONDITION_SYNONYMS (pyLower (pyStrip rest)) = none →
      ¬(pyLower (pyStrip rest) = "" ∨ pyLower (pyStrip rest) ∈ ["любой", "-", "any"]) →
      Buy.update_condition_filter db w sender text =
        ("Не понял состояние. Напишите «состояние целый» или «состояние после ДТП».", w)) := by
  refine ⟨?_, ?_, ?_, ?_⟩
  · exact update_condition_sets db w sender "состояние после ДТП" "состояние"
      "после ДТП" (some "после дтп") st0 hst rfl rfl
  · exact update_condition_sets db w sender "состояние целый" "состояние"
      "целый" (some "целый") st0 hst rfl rfl
  · exact update_condition_sets db w sender "состояние любой" "состояние"
      "любой" none st0 hst rfl rfl
  · intro text tok rest hsplit hmiss hsent
    have hnorm : Buy.normalize_condition rest = (none, false) := by
      unfold Buy.normalize_condition
      rw [if_neg hsent, hmiss]
    unfold Buy.update_condition_filter
    rw [hsplit]
    dsimp only
    rw [hnorm]
    simp only [Bool.not_false, if_true]

/-- Fixture: the prior condition value for the C8 witness. -/
def c8_state0 : Buy.FilterState :=
  { Buy.new_filter_state with condition := some "целый", page := 4 }

/-- Fixture world for the C8 witness. -/
def c8_world : Buy.BuyWorld := { w0 with filter_state := [("u", c8_state0)] }

theorem c8_condition_filter_witness :
    lookupK (Buy.update_condition_filter db0 c8_world "u"
        "состояние после ДТП").2.filter_state "u" =
      some { Buy.new_filter_state with condition := some "после дтп" } ∧
    Buy.update_condition_filter db0 c8_world "u" "состояние хлам" =
      ("Не понял состояние. Напишите «состояние целый» или «состояние после ДТП».",
       c8_world) :=
  ⟨(c8_condition_filter db0 c8_world "u" c8_state0 rfl).1,
   (c8_condition_filter db0 c8_world "u" c8_state0 rfl).2.2.2
     "состояние хлам" "состояние" "хлам" rfl rfl (by decide)⟩

theorem mem_keys_setK {α : Type} (m : List (String × α)) (k a : String) (v : α) :
    a ∈ (setK m k v).map Prod.fst ↔ a ∈ m.map Prod.fst ∨ a = k := by
  induction m with
  | nil => simp [setK]
  | cons p rest ih =>
    obtain ⟨k0, v0⟩ := p
    by_cases h0 : k0 = k
    · subst h0
      simp only [setK, beq_self_eq_true, if_true, List.map_cons, List.mem_cons]
      tauto
    · have hb : (k0 == k) = false := beq_eq_false_iff_ne.mpr h0
      simp only [setK, hb, Bool.false_eq_true, if_false, List.map_cons, List.mem_cons, ih]
      tauto

theorem nodup_keys_setK {α : Type} (m : List (String × α)) (k : String) (v : α)
    (h : (m.map Prod.fst).Nodup) : ((setK m k v).map Prod.fst).Nodup := by
  induction m with
  | nil => simp [setK]
  | cons p rest ih =>
    obtain ⟨k0, v0⟩ := p
    simp only [List.map_cons, List.nodup_cons] at h
    by_cases h0 : k0 = k
    · subst h0
      simp only [setK, beq_self_eq_true, if_true, List.map_cons, List.nodup_cons]
      exact h
    · have hb : (k0 == k) = false := beq_eq_false_iff_ne.mpr h0
      simp only [setK, hb, Bool.false_eq_true, if_false, List.map_cons, List.nodup_cons]
      refine ⟨fun hc => ?_, ih h.2⟩
      rw [mem_keys_setK] at hc
      rcases hc with hc | hc
      · exact h.1 hc
      · exact h0 hc

theorem lookupK_foldl_setK {α : Type} (l : List (String × α)) :
    ∀ (acc : List (String × α)) (k : String), (l.map Prod.fst).Nodup →
      lookupK (l.foldl (fun m p => setK m p.1 p.2) acc) k =
        (match lookupK l k with
         | some v => some v
         | none => lookupK acc k) := by
  induction l with
  | nil =>
    intro acc k _
    simp [lookupK_nil]
  | cons p rest ih =>
    intro acc k h
    obtain ⟨k0, v0⟩ := p
    simp only [List.map_cons, List.nodup_cons] at h
    simp only [List.foldl_cons]
    rw [ih (setK acc k0 v0) k h.2, lookupK_cons]
    by_cases hk : k0 = k
    · subst hk
      rw [lookupK_eq_none_of_not_mem rest k0 h.1]
      dsimp only
      rw [lookupK_setK_self]
      simp
    · have hb : (k0 == k) = false := beq_eq_false_iff_ne.mpr hk
      rw [lookupK_setK_ne acc k0 k v0 (Ne.symm hk)]
      simp only [hb, Bool.false_eq_true, if_false]

/-- Reloading an entire serialized mapping into a cleared store reproduces
    every lookup, provided the serialized keys are unique (a JSON object). -/
theorem lookupK_reload {α : Type} (l : List (String × α)) (k : String)
    (h : (l.map Prod.fst).Nodup) :
    lookupK (l.foldl (fun m p => setK m p.1 p.2) []) k = lookupK l k := by
  rw [lookupK_foldl_setK l [] k h]
  cases lookupK l k <;> simp [lookupK_nil]

/-- `_update_price_filter` sets exactly the price bounds and resets the page,
    and persists the resulting mapping to the state file. -/
theorem update_price_filter_state (db : Buy.Db) (w : Buy.BuyWorld) (sender text : String) :
    (Buy.update_price_filter db w sender text).2.filter_state =
      setK (Buy.ensure_state w sender).2.filter_state sender
        { (Buy.ensure_state w sender).1 with
          min_price := (Buy.parse_range text).1,
          max_price := (Buy.parse_range text).2, page := 0 } ∧
    (Buy.update_price_filter db w sender text).2.state_file =
      some (setK (Buy.ensure_state w sender).2.filter_state sender
        { (Buy.ensure_state w sender).1 with
          min_price := (Buy.parse_range text).1,
          max_price := (Buy.parse_range text).2, page := 0 }) := by
  unfold Buy.update_price_filter
  dsimp only
  have hself := lookupK_setK_self (Buy.ensure_state w sender).2.filter_state sender
    { (Buy.ensure_state w sender).1 with
      min_price := (Buy.parse_range text).1,
      max_price := (Buy.parse_range text).2, page := 0 }
  have hp := render_filtered_preserves db
    (Buy.persist_filter_state
      { (Buy.ensure_state w sender).2 with
        filter_state := setK (Buy.ensure_state w sender).2.filter_state sender
          { (Buy.ensure_state w sender).1 with
            min_price := (Buy.parse_range text).1,
            max_price := (Buy.parse_range text).2, page := 0 } }) sender _ hself
  exact ⟨hp.1, hp.2⟩

/-- C6: persist-then-load round trip of a price-filter update: after
    `_update_price_filter`, clearing the in-memory mapping and reloading from
    the state file reproduces the user's whole filter state, in particular
    exactly the parsed min/max price bounds. -/
theorem c6_price_filter_roundtrip (db : Buy.Db) (w : Buy.BuyWorld) (sender text : String)
    (hnodup : (w.filter_state.map Prod.fst).Nodup) :
    lookupK (Buy.load_filter_state
        { (Buy.update_price_filter db w sender text).2 with
          filter_state := [] }).filter_state sender =
      lookupK (Buy.update_price_filter db w sender text).2.filter_state sender ∧
    (lookupK (Buy.load_filter_state
        { (Buy.update_price_filter db w sender text).2 with
          filter_state := [] }).filter_state sender).map
        (fun st => (st.min_price, st.max_price)) =
      some ((Buy.parse_range text).1, (Buy.parse_range text).2) := by
  obtain ⟨hfs, hfile⟩ := update_price_filter_state db w sender text
  have hfile' : ({ (Buy.update_price_filter db w sender text).2 with
      filter_state := ([] : List (String × Buy.FilterState)) }).state_file =
      some ((Buy.update_price_filter db w sender text).2.filter_state) := by
    dsimp only
    rw [hfile, hfs]
  have hloadfs : (Buy.load_filter_state
      { (Buy.update_price_filter db w sender text).2 with
        filter_state := [] }).filter_state =
      ((Buy.update_price_filter db w sender text).2.filter_state).foldl
        (fun m p => setK m p.1 p.2) [] := by
    unfold Buy.load_filter_state
    rw [hfile']
  have hnodup_upd :
      (((Buy.update_price_filter db w sender text).2.filter_state).map Prod.fst).Nodup := by
    rw [hfs]
    apply nodup_keys_setK
    unfold Buy.ensure_state
    cases heq : lookupK w.filter_state sender
    · dsimp only
      exact nodup_keys_setK _ _ _ hnodup
    · dsimp only
      exact hnodup
  refine ⟨?_, ?_⟩
  · rw [hloadfs, lookupK_reload _ _ hnodup_upd]
  · rw [hloadfs, lookupK_reload _ _ hnodup_upd, hfs, lookupK_setK_self]
    rfl

theorem c6_price_filter_roundtrip_witness :
    lookupK (Buy.load_filter_state
        { (Buy.update_price_filter db0 w0 "u" "цена 100000-200000").2 with
          filter_state := [] }).filter_state "u" =
      lookupK (Buy.update_price_filter db0 w0 "u" "цена 100000-200000").2.filter_state
        "u" ∧
    (lookupK (Buy.load_filter_state
        { (Buy.update_price_filter db0 w0 "u" "цена 100000-200000").2 with
          filter_state := [] }).filter_state "u").map
        (fun st => (st.min_price, st.max_price)) =
      some (some 100000, some 200000) :=
  ⟨(c6_price_filter_roundtrip db0 w0 "u" "цена 100000-200000" (by decide)).1,
   (c6_price_filter_roundtrip db0 w0 "u" "цена 100000-200000" (by decide)).2⟩

/-- Fixture: a sell-side cached summary list for one user. -/
def c5_summaries : List (String × List Nat) := [("u", [10, 20])]

/-- Fixture: a buy-side world with a cached catalog list. -/
def c5_world : Buy.BuyWorld :=
  { w0 with filter_state := [("u", Buy.new_filter_state)],
            last_catalog := [("u", [10, 20])] }

/-- C5 counterexample: the claim says an input matching `объявление<digits>`
    resolves to the literal identifier it contains. In `sell.py` it resolves
    POSITIONALLY: with cached list `[10, 20]`, `"объявление1"` resolves to 10,
    not to the literal 1; and in `buy.py` the `объявление<digits>` pattern is
    not recognized at all (`"объявление7"` resolves to nothing, not to 7). -/
theorem c5_counterexample_literal_pattern :
    Sell.extract_detail_request c5_summaries "u" "объявление1" = some 10 ∧
    (10 : Nat) ≠ 1 ∧
    (Buy.extract_public_id db0 c5_world "u" "объявление7").1 = none :=
  ⟨rfl, by decide, rfl⟩

/-- C5 (amended): `id<digits>` resolves to its literal identifier in both
    resolvers; in `buy.py` the `объявление<digits>` pattern is not recognized
    (no identifier); in `sell.py` `объявление<digits>` and bare digit strings
    resolve positionally — 1-based position in the cached list when in range,
    else the literal positive value; bare digit strings in `buy.py` resolve
    positionally against the cached catalog when in range, and otherwise the
    cache is refreshed once by re-rendering before resolving positionally
    (when now in range) or as the literal value. -/
theorem c5_id_resolution_amended (summaries : List (String × List Nat))
    (db : Buy.Db) (w : Buy.BuyWorld) (sender text : String) :
    (∀ (n : Nat) (rest : List Nat),
      pyStartsWith (pyLower (pyStrip text)) "id" = true →
      findallNums (pyLower (pyStrip text)) = n :: rest →
      Sell.extract_detail_request summaries sender text = some n ∧
      Buy.extract_public_id db w sender text = (some n, w)) ∧
    (pyStartsWith (pyLower (pyStrip text)) "id" = false →
      pyIsDigit (pyLower (pyStrip text)) = false →
      Buy.extract_public_id db w sender text = (none, w)) ∧
    (∀ (n : Nat) (rest : List Nat),
      pyStartsWith (pyLower (pyStrip text)) "id" = false →
      pyStartsWith (pyLower (pyStrip text)) "объявление" = true →
      findallNums (pyLower (pyStrip text)) = n :: rest →
      Sell.extract_detail_request summaries sender text =
        Sell.resolve_index summaries sender n) ∧
    (pyStartsWith (pyLower (pyStrip text)) "id" = false →
      pyStartsWith (pyLower (pyStrip text)) "объявление" = false →
      pyIsDigit (pyLower (pyStrip text)) = true →
      Sell.extract_detail_request summaries sender text =
        Sell.resolve_index summaries sender (digitsVal (pyLower (pyStrip text)).data)) ∧
    (∀ (idx : Nat) (ids : List Nat), lookupK summaries sender = some ids →
      (¬ids.isEmpty ∧ 1 ≤ idx ∧ idx ≤ ids.length →
        Sell.resolve_index summaries sender idx = ids.get? (idx - 1)) ∧
      (¬(¬ids.isEmpty ∧ 1 ≤ idx ∧ idx ≤ ids.length) → 0 < idx →
        Sell.resolve_index summaries sender idx = some idx)) ∧
    (∀ (num : Nat) (ids : List Nat),
      pyStartsWith (pyLower (pyStrip text)) "id" = false →
      pyIsDigit (pyLower (pyStrip text)) = true →
      digitsVal (pyLower (pyStrip text)).data = num →
      lookupK w.last_catalog sender = some ids →
      ¬(ids.isEmpty = true ∨ num > ids.length) → 1 ≤ num →
      Buy.extract_public_id db w sender text = (ids.get? (num - 1), w)) ∧
    (∀ num : Nat,
      pyStartsWith (pyLower (pyStrip text)) "id" = false →
      pyIsDigit (pyLower (pyStrip text)) = true →
      digitsVal (pyLower (pyStrip text)).data = num → 0 < num →
      ((lookupK w.last_catalog sender).getD []).isEmpty = true ∨
        num > ((lookupK w.last_catalog sender).getD []).length →
      Buy.extract_public_id db w sender text =
        (if ¬((lookupK (Buy.render_filtered db w sender).2.last_catalog
              sender).getD []).isEmpty ∧ 1 ≤ num ∧
            num ≤ ((lookupK (Buy.render_filtered db w sender).2.last_catalog
              sender).getD []).length then
          (((lookupK (Buy.render_filtered db w sender).2.last_catalog
              sender).getD []).get? (num - 1),
           (Buy.render_filtered db w sender).2)
        else (some num, (Buy.render_filtered db w sender).2))) := by
  refine ⟨?_, ?_, ?_, ?_, ?_, ?_, ?_⟩
  · intro n rest hid hfind
    constructor
    · unfold Sell.extract_detail_request
      dsimp only
      rw [if_pos hid, hfind]
    · unfold Buy.extract_public_id
      dsimp only
      rw [if_pos hid, hfind]
  · intro hid hdig
    unfold Buy.extract_public_id
    dsimp only
    rw [if_neg (by simp [hid]), if_neg (by simp [hdig])]
  · intro n rest hid hob hfind
    unfold Sell.extract_detail_request
    dsimp only
    rw [if_neg (by simp [hid]), if_pos hob, hfind]
  · intro hid hob hdig
    unfold Sell.extract_detail_request
    dsimp only
    rw [if_neg (by simp [hid]), if_neg (by simp [hob]), if_pos hdig]
  · intro idx ids hids
    unfold Sell.resolve_index
    rw [hids]
    dsimp only [Option.getD]
    constructor
    · intro hin
      rw [if_pos hin]
    · intro hout hpos
      rw [if_neg hout, if_pos hpos]
  · intro num ids hid hdig hnum hcat hrange hpos
    unfold Buy.extract_public_id
    dsimp only
    rw [if_neg (by simp [hid]), if_pos hdig, hnum,
      if_neg (by omega : ¬ num ≤ 0), hcat]
    dsimp only [Option.getD]
    rw [if_neg hrange]
    dsimp only
    have hr := not_or.mp hrange
    have hle : num ≤ ids.length := Nat.le_of_not_lt hr.2
    rw [if_pos ⟨hr.1, hpos, hle⟩]
  · intro num hid hdig hnum hpos hmiss
    unfold Buy.extract_public_id
    dsimp only
    rw [if_neg (by simp [hid]), if_pos hdig, hnum,
      if_neg (by omega : ¬ num ≤ 0), if_pos hmiss]

theorem c5_id_resolution_amended_witness :
    Sell.extract_detail_request c5_summaries "u" "id12" = some 12 ∧
    Buy.extract_public_id db0 c5_world "u" "id12" = (some 12, c5_world) ∧
    Buy.extract_public_id db0 c5_world "u" "объявление7" = (none, c5_world) ∧
    Sell.extract_detail_request c5_summaries "u" "объявление1" = some 10 ∧
    Sell.extract_detail_request c5_summaries "u" "2" = some 20 ∧
    Buy.extract_public_id db0 c5_world "u" "2" = (some 20, c5_world) := by
  refine ⟨?_, ?_, ?_, ?_, ?_, ?_⟩
  · exact ((c5_id_resolution_amended c5_summaries db0 c5_world "u" "id12").1
      12 [] rfl rfl).1
  · exact ((c5_id_resolution_amended c5_summaries db0 c5_world "u" "id12").1
      12 [] rfl rfl).2
  · exact (c5_id_resolution_amended c5_summaries db0 c5_world "u"
      "объявление7").2.1 rfl rfl
  · exact ((c5_id_resolution_amended c5_summaries db0 c5_world "u"
      "объявление1").2.2.1 1 [] rfl rfl rfl).trans rfl
  · exact ((c5_id_resolution_amended c5_summaries db0 c5_world "u"
      "2").2.2.2.1 rfl rfl rfl).trans rfl
  · exact ((c5_id_resolution_amended c5_summaries db0 c5_world "u"
      "2").2.2.2.2.2.1 2 [10, 20] rfl rfl rfl rfl (by decide) (by decide)).trans rfl

/-- C10: per-sender isolation of `SellFormManager`: `start`, `cancel`,
    `handle` and `handle_media` invoked for sender `s` leave the stored state
    of any other sender `s'` unchanged. -/
theorem c10_sender_isolation (y : Int)
    (createAd : String → List (String × Forms.FormValue) → Except String Forms.AdResult)
    (save : String → Option String → String → Except String String)
    (states : Forms.StateMap) (s s' : String) (hne : s ≠ s')
    (msg : Option String) (m : Forms.MediaEvent) :
    lookupK (Forms.start y states s).2 s' = lookupK states s' ∧
    lookupK (Forms.cancel states s) s' = lookupK states s' ∧
    (∀ r states1, Forms.handle y createAd states s msg = Except.ok (r, states1) →
        lookupK states1 s' = lookupK states s') ∧
    (∀ r states1, Forms.handle_media y save states s m = Except.ok (r, states1) →
        lookupK states1 s' = lookupK states s') := by
  have hset : ∀ v : Forms.SellFormState,
      lookupK (setK states s v) s' = lookupK states s' :=
    fun v => lookupK_setK_ne states s s' v (Ne.symm hne)
  have hpop : lookupK (popK states s) s' = lookupK states s' :=
    lookupK_popK_ne states s s' (Ne.symm hne)
  have hpopset : ∀ v : Forms.SellFormState,
      lookupK (popK (setK states s v) s) s' = lookupK states s' := fun v => by
    rw [lookupK_popK_ne _ _ _ (Ne.symm hne), hset v]
  refine ⟨hset _, hpop, ?_, ?_⟩
  · intro r states1 heq
    unfold Forms.handle at heq
    dsimp only at heq
    repeat' split at heq
    all_goals
      first
        | exact absurd heq (by intro hx; exact Except.noConfusion hx)
        | (simp only [Except.ok.injEq, Prod.mk.injEq] at heq
           obtain ⟨-, h2⟩ := heq
           subst h2
           first | rfl | exact hpop | exact hset _ | exact hpopset _)
  · intro r states1 heq
    unfold Forms.handle_media at heq
    dsimp only at heq
    repeat' split at heq
    all_goals
      first
        | exact absurd heq (by intro hx; exact Except.noConfusion hx)
        | (simp only [Except.ok.injEq, Prod.mk.injEq] at heq
           obtain ⟨-, h2⟩ := heq
           subst h2
           first | rfl | exact hpop | exact hset _)

/-- Fixture for the C10 witness: two senders mid-wizard. -/
def c10_states : Forms.StateMap :=
  [("a", { step_index := 0, data := [], photos := [] }),
   ("b", { step_index := 2, data := [("title", Forms.FormValue.str "Лада")], photos := [] })]

theorem c10_sender_isolation_witness :
    lookupK (Forms.start 2026 c10_states "a").2 "b" = lookupK c10_states "b" ∧
    lookupK (Forms.cancel c10_states "a") "b" = lookupK c10_states "b" ∧
    lookupK (Forms.cancel c10_states "a") "b" =
      some { step_index := 2, data := [("title", Forms.FormValue.str "Лада")], photos := [] } :=
  ⟨(c10_sender_isolation 2026 c1_createAd c1_save c10_states "a" "b" (by decide)
      none { typeMessage := "textMessage", fileData := none }).1,
   (c10_sender_isolation 2026 c1_createAd c1_save c10_states "a" "b" (by decide)
      none { typeMessage := "textMessage", fileData := none }).2.1,
   rfl⟩

end IspaylaBot
